import Mathlib

/-!
Verification development for the PIN client daemon (src/src/main.rs).

The daemon is shallowly embedded: pure Rust functions become Lean
functions; the external world (HTTP backends, wall clocks, the wire) is
passed in as explicit oracle inputs; machine integers are Nat with an
explicit modulus where the Rust arithmetic can wrap (u32 casts, the u64
request counter); Rust panics (unwrap) are modelled by Option, with none
standing for the panic branch.
-/

set_option maxHeartbeats 1000000

/-! ## Data model (structs of main.rs) -/

/-- One configured backend node (struct NodeConfig, main.rs lines 31-41).
The f64 price is never computed with by the core, only copied onto the
wire; it is carried here as a Rat. The source field name alias is a
reserved word in Lean and is written node_alias throughout. -/
structure NodeConfig where
  node_alias : String
  inference_uri : String
  api_mode : String
  region : String
  capacity : Nat
  price_per_thousand_tokens : Rat
deriving DecidableEq

/-- Process configuration (struct Config, main.rs lines 47-59).
Fields irrelevant to the routed behaviour (server_url, reconnect delay)
are carried for completeness. -/
structure Config where
  client_id : String
  api_secret : String
  nodes : List NodeConfig
  payout_address : Option String
  server_url : String
  reconnect_delay_secs : Nat
deriving DecidableEq

/-- One chat message (struct ChatMessage, main.rs lines 120-124). -/
structure ChatMessage where
  role : String
  content : String
deriving DecidableEq

/-- Inference payload of an INFERENCE_REQUEST (struct InferencePayload,
main.rs lines 112-118). -/
structure InferencePayload where
  model : String
  messages : List ChatMessage
  stream : Bool
deriving DecidableEq

/-- One benchmark prompt (struct InterviewPrompt, main.rs lines 85-90). -/
structure InterviewPrompt where
  id : String
  prompt : String
  max_tokens : Nat
deriving DecidableEq

/-- Per-prompt interview outcome (struct PromptResult, main.rs
lines 101-110). The u32 fields are Nat values below 2^32. -/
structure PromptResult where
  prompt_id : String
  response : String
  ttft_ms : Nat
  total_ms : Nat
  tokens_generated : Nat
  error : Option String
deriving DecidableEq

/-- Outbound interview report (struct InterviewResult, main.rs
lines 92-99). -/
structure InterviewResult where
  msg_type : String
  interview_id : String
  model : String
  results : List PromptResult
deriving DecidableEq

/-- Inbound tagged message (enum ServerMessage, main.rs lines 69-83).
The f32 interview statistics are only logged; they are carried as Rat. -/
inductive ServerMessage where
  | AUTH_SUCCESS (operator_id : String) (node_id : Option String) (message : String)
  | ERROR (message : String)
  | PING
  | HEARTBEAT_ACK
  | MODEL_LIST_ACK
  | REGISTER_NODE_ACK (node_id : String) (node_alias : String) (models : List String) (created : Bool) (message : String)
  | UPDATE_WALLET_ACK (success : Bool) (message : String)
  | INFERENCE_REQUEST (request_id : String) (payload : InferencePayload)
  | INTERVIEW_REQUEST (interview_id : String) (node_id : Option String) (model : String) (prompts : List InterviewPrompt) (timeout_ms : Nat)
  | INTERVIEW_COMPLETE (interview_id : String) (node_id : Option String) (tier : String) (accuracy : Rat) (tokens_per_sec : Rat) (reason : String)
deriving DecidableEq

/-- One choice of an OpenAI-shaped chat completion (struct OpenAIChoice,
main.rs lines 186-191). -/
structure OpenAIChoice where
  index : Nat
  message : ChatMessage
  finish_reason : Option String
deriving DecidableEq

/-- Token usage of an OpenAI-shaped chat completion (struct OpenAIUsage,
main.rs lines 193-198). -/
structure OpenAIUsage where
  prompt_tokens : Nat
  completion_tokens : Nat
  total_tokens : Nat
deriving DecidableEq

/-- OpenAI-shaped chat-completion response (struct OpenAIResponse,
main.rs lines 200-206). -/
structure OpenAIResponse where
  choices : List OpenAIChoice
  usage : Option OpenAIUsage
  model : String
deriving DecidableEq

/-- Ollama chat request body (struct OllamaChatRequest, main.rs
lines 168-173). -/
structure OllamaChatRequest where
  model : String
  messages : List ChatMessage
  stream : Option Bool
deriving DecidableEq

/-- Ollama chat response body (struct OllamaChatResponse, main.rs
lines 175-184). -/
structure OllamaChatResponse where
  model : String
  message : ChatMessage
  done : Bool
  prompt_eval_count : Option Nat
  eval_count : Option Nat
deriving DecidableEq

/-- OpenAI chat request body (struct OpenAIChatRequest, main.rs
lines 283-289). -/
structure OpenAIChatRequest where
  model : String
  messages : List ChatMessage
  stream : Option Bool
deriving DecidableEq

/-- Generic outbound message body (struct ClientMessage, main.rs
lines 135-147). The serde_json Value held in the result field is the
serialized OpenAIResponse; the embedding keeps it structured. -/
structure ClientMessage where
  msg_type : String
  request_id : Option String
  result : Option OpenAIResponse
  error : Option String
  models : Option (List String)
deriving DecidableEq

/-- Outbound REGISTER_NODE message (struct RegisterNodeMessage, main.rs
lines 149-159). -/
structure RegisterNodeMessage where
  msg_type : String
  node_alias : String
  models : List String
  capacity : Nat
  region : String
  price_per_thousand_tokens : Rat
deriving DecidableEq

/-- Outbound UPDATE_WALLET message (struct UpdateWalletMessage, main.rs
lines 161-166). -/
structure UpdateWalletMessage where
  msg_type : String
  payout_address : String
deriving DecidableEq

/-! ## Signature module (compute_signature, main.rs lines 218-226)

Strings are modelled as their byte sequences (List Nat, each below 256);
SHA-256 itself lives in the external sha2 crate and is passed in as a
function parameter, the code around it being what the claim specifies. -/

/-- ASCII code of the lowercase hexadecimal digit for a nibble.
hex::encode maps each nibble through the lowercase alphabet 0-9 a-f. -/
def hex_char (n : Nat) : Nat :=
  if n < 10 then 48 + n else 87 + n

/-- Lowercase hex rendering of a byte string, as hex::encode does: high
nibble then low nibble of every byte, in order. For bytes below 256 the
inner mod 16 is the identity on the high nibble. -/
def hex_encode : List Nat → List Nat
  | [] => []
  | b :: rest => hex_char (b / 16 % 16) :: hex_char (b % 16) :: hex_encode rest

/-- Embedding of compute_signature (main.rs lines 218-226): hash the
secret, render it in lowercase hex, then hash clientId ++ timestamp ++
that rendering and render the digest in lowercase hex. -/
def compute_signature (sha256 : List Nat → List Nat) (client_id timestamp api_secret : List Nat) : List Nat :=
  let secret_hash := hex_encode (sha256 api_secret)
  hex_encode (sha256 (client_id ++ timestamp ++ secret_hash))

/-- Modelled from the spec words of section 4.1: secretHash =
SHA-256(sharedSecret); signature = SHA-256(clientId ++ timestampSeconds
++ hex(secretHash)), rendered as lowercase hex. Stated separately so the
code embedding can be compared against it. -/
def sign_spec (sha256 : List Nat → List Nat) (client_id timestamp api_secret : List Nat) : List Nat :=
  hex_encode (sha256 (client_id ++ timestamp ++ hex_encode (sha256 api_secret)))

/-- The ASCII codes of the lowercase hexadecimal alphabet: digits 0-9
(48-57) and letters a-f (97-102). -/
def is_lower_hex_digit (b : Nat) : Prop :=
  (48 ≤ b ∧ b ≤ 57) ∨ (97 ≤ b ∧ b ≤ 102)

instance (b : Nat) : Decidable (is_lower_hex_digit b) := by
  unfold is_lower_hex_digit
  infer_instance

theorem hex_char_lower {n : Nat} (h : n < 16) : is_lower_hex_digit (hex_char n) := by
  unfold hex_char is_lower_hex_digit
  split <;> omega

theorem hex_encode_lower (l : List Nat) : ∀ b ∈ hex_encode l, is_lower_hex_digit b := by
  induction l with
  | nil => intro b hb; simp [hex_encode] at hb
  | cons x rest ih =>
    intro b hb
    simp only [hex_encode, List.mem_cons] at hb
    rcases hb with h | h | h
    · exact h ▸ hex_char_lower (Nat.mod_lt _ (by norm_num))
    · exact h ▸ hex_char_lower (Nat.mod_lt _ (by norm_num))
    · exact ih b h

/-! ## Backend adapter boundary

The HTTP clients (reqwest calls in get_ollama_models, get_openai_models,
chat_completion_ollama, chat_completion_openai) are external
collaborators; a Backend value supplies their observable outcomes. The
dispatch on api_mode and the Ollama response conversion are source logic
and are embedded. -/

/-- Outcomes of the four external HTTP interactions of main.rs: the two
model-listing endpoints (lines 238-274) and the two raw chat endpoints
(the send/status/parse part of lines 291-374). An error value is the
formatted failure string the source builds from the HTTP fault. -/
structure Backend where
  ollama_models : String → Except String (List String)
  openai_models : String → Except String (List String)
  ollama_chat_raw : String → OllamaChatRequest → Except String OllamaChatResponse
  openai_chat_raw : String → OpenAIChatRequest → Except String OpenAIResponse

/-- Embedding of get_models (main.rs lines 276-281): dispatch on the
api_mode string, "openai" to the OpenAI listing, anything else to the
Ollama listing. -/
def get_models (b : Backend) (base_url api_mode : String) : Except String (List String) :=
  if api_mode = "openai" then b.openai_models base_url else b.ollama_models base_url

/-- Embedding of chat_completion_ollama (main.rs lines 291-340): on a
raw Ollama success, repackage the reply as a single-choice OpenAI-shaped
response; token counts default to 0 and their u32 sum wraps mod 2^32. -/
def chat_completion_ollama (b : Backend) (base_url model : String) (messages : List ChatMessage) : Except String OpenAIResponse :=
  match b.ollama_chat_raw base_url { model := model, messages := messages, stream := some false } with
  | Except.error e => Except.error e
  | Except.ok r =>
    let prompt_tokens := r.prompt_eval_count.getD 0
    let completion_tokens := r.eval_count.getD 0
    Except.ok
      { model := r.model
        choices := [{ index := 0, message := r.message, finish_reason := some "stop" }]
        usage := some { prompt_tokens := prompt_tokens, completion_tokens := completion_tokens,
                        total_tokens := (prompt_tokens + completion_tokens) % 2 ^ 32 } }

/-- Embedding of chat_completion_openai (main.rs lines 342-374): the raw
response is returned as parsed. -/
def chat_completion_openai (b : Backend) (base_url model : String) (messages : List ChatMessage) : Except String OpenAIResponse :=
  b.openai_chat_raw base_url { model := model, messages := messages, stream := some false }

/-- Embedding of chat_completion (main.rs lines 376-386): dispatch on
api_mode, "openai" to the OpenAI path, anything else to Ollama. -/
def chat_completion (b : Backend) (base_url model : String) (messages : List ChatMessage) (api_mode : String) : Except String OpenAIResponse :=
  if api_mode = "openai" then chat_completion_openai b base_url model messages
  else chat_completion_ollama b base_url model messages

/-! ## Interview executor (main.rs lines 388-467)

Wall-clock latency comes from Instant::now in the source and is supplied
here as an oracle: lat gives the measured elapsed milliseconds of each
call, and the as-u32 cast of as_millis wraps mod 2^32. -/

/-- Embedding of run_interview_prompt (main.rs lines 388-431): one chat
call for the prompt text as a user message; on success the first choice
text, half the total latency as approximate TTFT and the reported
completion-token count (0 when absent); on failure empty text, zero TTFT
and token count, the measured latency and the error string. -/
def run_interview_prompt (b : Backend) (lat : Nat) (base_url model : String) (prompt : InterviewPrompt) (api_mode : String) : PromptResult :=
  let total_ms := lat % 2 ^ 32
  match chat_completion b base_url model [{ role := "user", content := prompt.prompt }] api_mode with
  | Except.ok resp =>
      { prompt_id := prompt.id
        response := ((resp.choices.head?).map (fun c => c.message.content)).getD ""
        ttft_ms := total_ms / 2
        total_ms := total_ms
        tokens_generated := ((resp.usage).map (fun u => u.completion_tokens)).getD 0
        error := none }
  | Except.error e =>
      { prompt_id := prompt.id
        response := ""
        ttft_ms := 0
        total_ms := total_ms
        tokens_generated := 0
        error := some e }

/-- The prompt loop of execute_interview (main.rs lines 443-457): each
prompt is awaited in turn and its result pushed; the running index
selects that call's latency oracle entry. -/
def interview_results (b : Backend) (lat : Nat → Nat) (base_url model api_mode : String) : Nat → List InterviewPrompt → List PromptResult
  | _, [] => []
  | i, p :: rest =>
      run_interview_prompt b (lat i) base_url model p api_mode ::
        interview_results b lat base_url model api_mode (i + 1) rest

/-- Embedding of execute_interview (main.rs lines 433-467): run every
prompt in order and wrap the results as an INTERVIEW_RESULT message. -/
def execute_interview (b : Backend) (lat : Nat → Nat) (base_url interview_id model : String) (prompts : List InterviewPrompt) (api_mode : String) : InterviewResult :=
  { msg_type := "INTERVIEW_RESULT"
    interview_id := interview_id
    model := model
    results := interview_results b lat base_url model api_mode 0 prompts }

/-! ## Wallet-address masking (main.rs line 526)

The AUTH_SUCCESS handler logs the payout address masked to a prefix of
at most 6 and a suffix of at most 4 bytes via byte-range indexing, and
it does so before sending anything. Rust string slicing panics when an
index exceeds the length or falls inside a multi-byte character, so the
address is modelled at the UTF-8 byte level and a slice is an Option,
none standing for the panic. -/

/-- The UTF-8 encoding of one Unicode scalar value, the byte view a Rust
String has of each character. -/
def char_utf8 (c : Char) : List Nat :=
  let n := c.toNat
  if n < 128 then [n]
  else if n < 2048 then [192 + n / 64, 128 + n % 64]
  else if n < 65536 then [224 + n / 4096, 128 + n / 64 % 64, 128 + n % 64]
  else [240 + n / 262144, 128 + n / 4096 % 64, 128 + n / 64 % 64, 128 + n % 64]

/-- The UTF-8 bytes of a character list, in order. -/
def bytes_of_chars : List Char → List Nat
  | [] => []
  | c :: rest => char_utf8 c ++ bytes_of_chars rest

/-- The UTF-8 byte string of a Lean string: what Rust byte-indexes. -/
def str_bytes (s : String) : List Nat :=
  bytes_of_chars s.data

/-- Rust str::is_char_boundary on a byte string: index 0 and the length
are boundaries, and an interior index is one exactly when its byte is
not a UTF-8 continuation byte (below 128 or at least 192). -/
def is_char_boundary (s : List Nat) (i : Nat) : Bool :=
  i = 0 ||
    match s.get? i with
    | some b => decide (b < 128) || decide (192 ≤ b)
    | none => decide (i = s.length)

/-- The slice s[..i]: defined only when i is a char boundary (an index
past the end is none, the out-of-range panic). -/
def slice_to (s : List Nat) (i : Nat) : Option (List Nat) :=
  if is_char_boundary s i then some (s.take i) else none

/-- The slice s[i..]: defined only when i is a char boundary. -/
def slice_from (s : List Nat) (i : Nat) : Option (List Nat) :=
  if is_char_boundary s i then some (s.drop i) else none

/-- The masking expression of main.rs line 526: prefix up to index
6.min(len) and suffix from index len.saturating_sub(4) (Nat subtraction
saturates exactly as saturating_sub does). -/
def mask_payout (addr : List Nat) : Option (List Nat × List Nat) :=
  match slice_to addr (min 6 addr.length), slice_from addr (addr.length - 4) with
  | some p, some s => some (p, s)
  | _, _ => none

/-! ## Session routing state (run_connection, main.rs lines 469-728) -/

/-- Insert into an association list with the overwrite semantics of
HashMap::insert: replace the value of an existing key, else append. -/
def assoc_insert (m : List (String × String × String)) (k : String) (v : String × String) : List (String × String × String) :=
  match m with
  | [] => [(k, v)]
  | (k2, v2) :: rest => if k2 = k then (k, v) :: rest else (k2, v2) :: assoc_insert rest k v

/-- Lookup in the association list, the model of HashMap::get. -/
def assoc_get (m : List (String × String × String)) (k : String) : Option (String × String) :=
  match m with
  | [] => none
  | (k2, v2) :: rest => if k2 = k then some v2 else assoc_get rest k

/-- The NodeEndpointTable (main.rs lines 499-502): alias to (endpoint,
api mode), one insert per configured node in list order. -/
def node_endpoints (cfg : Config) : List (String × String × String) :=
  cfg.nodes.foldl (fun m n => assoc_insert m n.node_alias (n.inference_uri, n.api_mode)) []

/-- The endpoint resolution of the INTERVIEW_REQUEST handler (main.rs
lines 602-612): the label is the request node_id, or the literal
"operator" when absent; a table hit is used as is, a miss falls back to
the first configured node, whose unwrap panics (none) on an empty node
list. -/
def interview_target (cfg : Config) (node_id : Option String) : Option (String × String) :=
  let node_label := node_id.getD "operator"
  match assoc_get (node_endpoints cfg) node_label with
  | some p => some p
  | none => cfg.nodes.head?.map (fun n => (n.inference_uri, n.api_mode))

/-- One unit of inference work handed to a spawned dispatcher task
(captured variables of the spawn at main.rs lines 639-650). -/
structure WorkItem where
  uri : String
  api_mode : String
  model : String
  messages : List ChatMessage
  request_id : String
deriving DecidableEq

/-- Everything the session writes to the wire, tagged by which struct it
serializes. -/
inductive OutMsg where
  | wallet (m : UpdateWalletMessage)
  | register (m : RegisterNodeMessage)
  | client (m : ClientMessage)
  | interview (m : InterviewResult)
deriving DecidableEq

/-- Outcome of routing one decoded inbound message: either the loop
continues, having written the listed messages and spawned the listed
work items, or the handler returns the fatal cause that terminates
run_connection (the ERROR arm, main.rs lines 579-582). -/
inductive StepOut where
  | cont (outbound : List OutMsg) (spawned : List WorkItem)
  | fatal (cause : String)
deriving DecidableEq

/-- The messages the wallet-update branch writes when it runs to
completion: one UPDATE_WALLET when a payout address is configured and
non-empty, nothing otherwise. -/
def wallet_msgs_sent (cfg : Config) : List OutMsg :=
  match cfg.payout_address with
  | some payout_addr =>
      if payout_addr = "" then []
      else [OutMsg.wallet { msg_type := "UPDATE_WALLET", payout_address := payout_addr }]
  | none => []

/-- The wallet-update part of the AUTH_SUCCESS handler (main.rs
lines 524-535): for a configured non-empty payout address the handler
first builds the masked log rendering of main.rs line 526, whose byte
slicing panics (none) when 6.min(len) or len - 4 is not a character
boundary of the address; only past that does it send UPDATE_WALLET. An
absent or empty address skips both the masking and the send. -/
def wallet_msgs (cfg : Config) : Option (List OutMsg) :=
  match cfg.payout_address with
  | some payout_addr =>
      if payout_addr = "" then some []
      else
        match mask_payout (str_bytes payout_addr) with
        | some _ =>
            some [OutMsg.wallet { msg_type := "UPDATE_WALLET", payout_address := payout_addr }]
        | none => none
  | none => some []

/-- The per-node registration of the AUTH_SUCCESS handler (main.rs
lines 539-570): query the node's backend for its models, substituting an
empty list on failure, and build its REGISTER_NODE message. -/
def register_msg (b : Backend) (n : NodeConfig) : RegisterNodeMessage :=
  let models :=
    match get_models b n.inference_uri n.api_mode with
    | Except.ok m => m
    | Except.error _ => []
  { msg_type := "REGISTER_NODE"
    node_alias := n.node_alias
    models := models
    capacity := n.capacity
    region := n.region
    price_per_thousand_tokens := n.price_per_thousand_tokens }

/-- All wire output of the AUTH_SUCCESS handler (main.rs lines 519-573):
the optional wallet update, then one registration per configured node in
list order; none when the wallet-address masking panics at main.rs
line 526, in which case the handler aborts before sending anything. -/
def auth_success_msgs (b : Backend) (cfg : Config) : Option (List OutMsg) :=
  (wallet_msgs cfg).map
    (fun w => w ++ cfg.nodes.map (fun n => OutMsg.register (register_msg b n)))

/-- Whether the configured payout address survives the line-526 masking:
absent and empty addresses are never masked, any other address must keep
both slice indices on character boundaries (every ASCII address does). -/
def payout_maskable (cfg : Config) : Bool :=
  match cfg.payout_address with
  | some a => if a = "" then true else (mask_payout (str_bytes a)).isSome
  | none => true

/-- The INFERENCE_REQUEST handler (main.rs lines 636-687): bump the
process-wide u64 request counter (fetch_add wraps mod 2^64), unwrap the
first configured node (none on an empty list), and spawn one work item
against that node's endpoint and mode; no message is written
synchronously. -/
def handle_inference (cfg : Config) (count : Nat) (request_id : String) (payload : InferencePayload) : Option (Nat × List OutMsg × List WorkItem) :=
  let count2 := (count + 1) % 2 ^ 64
  cfg.nodes.head?.map (fun first =>
    (count2, [],
      [{ uri := first.inference_uri, api_mode := first.api_mode,
         model := payload.model, messages := payload.messages,
         request_id := request_id }]))

/-- Body of the spawned dispatcher task (main.rs lines 650-687) past the
semaphore acquisition: run the chat completion and build the single
reply, INFERENCE_RESPONSE with the structured result on success,
INFERENCE_ERROR with the failure string on failure, both echoing the
request id. -/
def inference_task_reply (b : Backend) (w : WorkItem) : ClientMessage :=
  match chat_completion b w.uri w.model w.messages w.api_mode with
  | Except.ok openai_resp =>
      { msg_type := "INFERENCE_RESPONSE"
        request_id := some w.request_id
        result := some openai_resp
        error := none
        models := none }
  | Except.error e =>
      { msg_type := "INFERENCE_ERROR"
        request_id := some w.request_id
        result := none
        error := some e
        models := none }

/-- Messages the spawned task pushes onto the outbound queue (main.rs
lines 683-686): exactly the one reply. Serialization of a ClientMessage
cannot fail, so the send guard is total here. -/
def inference_task_msgs (b : Backend) (w : WorkItem) : List ClientMessage :=
  [inference_task_reply b w]

/-- The PONG reply of the PING arm (main.rs lines 583-592). -/
def pong_msg : ClientMessage :=
  { msg_type := "PONG", request_id := none, result := none, error := none, models := none }

/-- The protocol router (the match over ServerMessage, main.rs
lines 518-689): one decoded inbound message to the new request count and
the step outcome; none models the panics, namely the unwraps on an empty
node list and the wallet-mask slicing of the AUTH_SUCCESS arm. -/
def route (b : Backend) (lat : Nat → Nat) (cfg : Config) (count : Nat) : ServerMessage → Option (Nat × StepOut)
  | ServerMessage.AUTH_SUCCESS _ _ _ =>
      (auth_success_msgs b cfg).map (fun out => (count, StepOut.cont out []))
  | ServerMessage.REGISTER_NODE_ACK _ _ _ _ _ => some (count, StepOut.cont [] [])
  | ServerMessage.ERROR message => some (count, StepOut.fatal message)
  | ServerMessage.PING => some (count, StepOut.cont [OutMsg.client pong_msg] [])
  | ServerMessage.HEARTBEAT_ACK => some (count, StepOut.cont [] [])
  | ServerMessage.MODEL_LIST_ACK => some (count, StepOut.cont [] [])
  | ServerMessage.UPDATE_WALLET_ACK _ _ => some (count, StepOut.cont [] [])
  | ServerMessage.INTERVIEW_REQUEST interview_id node_id model prompts _ =>
      (interview_target cfg node_id).map (fun t =>
        (count, StepOut.cont [OutMsg.interview (execute_interview b lat t.1 interview_id model prompts t.2)] []))
  | ServerMessage.INTERVIEW_COMPLETE _ _ _ _ _ _ => some (count, StepOut.cont [] [])
  | ServerMessage.INFERENCE_REQUEST request_id payload =>
      (handle_inference cfg count request_id payload).map (fun r => (r.1, StepOut.cont r.2.1 r.2.2))

/-- Processing one inbound text frame (main.rs lines 516-694): a decode
failure is logged and dropped, the loop continuing with no output; a
decoded message goes through the router. -/
def handle_frame (b : Backend) (lat : Nat → Nat) (cfg : Config) (count : Nat) (decoded : Except String ServerMessage) : Option (Nat × StepOut) :=
  match decoded with
  | Except.error _ => some (count, StepOut.cont [] [])
  | Except.ok m => route b lat cfg count m

/-- The startup guard of main (main.rs lines 780-783): the process exits
before any session runs unless at least one node is configured. -/
def startup_accepts (cfg : Config) : Bool :=
  !cfg.nodes.isEmpty

/-! ## Dispatcher concurrency model (main.rs lines 476, 647-654)

The session creates Semaphore::new(max_threads) and every spawned
inference task acquires one permit before its backend call and releases
it (permit drop) when the call completes. The interleaving of the tasks
is modelled as a labelled transition system: a task is submitted
(spawned), starts executing when it obtains a permit, and releases the
permit when it finishes. -/

/-- Lifecycle of one spawned dispatcher task: queued behind the
semaphore, executing its backend call, or finished. -/
inductive TStat where
  | waiting
  | running
  | finished
deriving DecidableEq

/-- Dispatcher state: free semaphore permits plus the status of every
task spawned so far. -/
structure DispState where
  permits : Nat
  tasks : List TStat
deriving DecidableEq

/-- Session start (main.rs line 476): a fresh semaphore with n permits
and no tasks. -/
def disp_init (n : Nat) : DispState :=
  { permits := n, tasks := [] }

/-- Whether a task status is the executing state. -/
def is_running (t : TStat) : Bool :=
  match t with
  | TStat.running => true
  | _ => false

/-- Number of concurrently executing backend calls. -/
def count_running (l : List TStat) : Nat :=
  l.countP is_running

/-- The dispatcher transitions. submit is tokio::spawn (main.rs
line 650): always enabled, the task joins in the waiting state. acquire
is the semaphore acquisition (line 651): enabled only when a permit is
free, and consumes it. release is the permit drop when the task body
finishes (end of the spawned block). -/
inductive DispStep : DispState → DispState → Prop where
  | submit (s : DispState) :
      DispStep s { permits := s.permits, tasks := s.tasks ++ [TStat.waiting] }
  | acquire (s : DispState) (i : Nat) (hp : 0 < s.permits) (hi : s.tasks.get? i = some TStat.waiting) :
      DispStep s { permits := s.permits - 1, tasks := s.tasks.set i TStat.running }
  | release (s : DispState) (i : Nat) (hi : s.tasks.get? i = some TStat.running) :
      DispStep s { permits := s.permits + 1, tasks := s.tasks.set i TStat.finished }

/-- States a session with limiter size n can reach. -/
def DispReachable (n : Nat) (s : DispState) : Prop :=
  Relation.ReflTransGen DispStep (disp_init n) s

/-- A waiting task can start executing: a permit is free and some task
is queued. These are exactly the premises of the acquire transition. -/
def can_start (s : DispState) : Prop :=
  0 < s.permits ∧ ∃ i, s.tasks.get? i = some TStat.waiting

theorem count_running_append_waiting (l : List TStat) :
    count_running (l ++ [TStat.waiting]) = count_running l := by
  simp [count_running, List.countP_append, List.countP_cons, is_running]

theorem count_running_set_run {l : List TStat} {i : Nat} (h : l.get? i = some TStat.waiting) :
    count_running (l.set i TStat.running) = count_running l + 1 := by
  induction l generalizing i with
  | nil => simp at h
  | cons x rest ih =>
    cases i with
    | zero =>
      simp only [List.get?] at h
      cases h
      simp [count_running, List.set, List.countP_cons, is_running]
    | succ j =>
      simp only [List.get?] at h
      simp only [List.set, count_running, List.countP_cons]
      have := ih h
      simp only [count_running] at this
      omega

theorem count_running_set_finished {l : List TStat} {i : Nat} (h : l.get? i = some TStat.running) :
    count_running l = count_running (l.set i TStat.finished) + 1 := by
  induction l generalizing i with
  | nil => simp at h
  | cons x rest ih =>
    cases i with
    | zero =>
      simp only [List.get?] at h
      cases h
      simp [count_running, List.set, List.countP_cons, is_running]
    | succ j =>
      simp only [List.get?] at h
      simp only [List.set, count_running, List.countP_cons]
      have := ih h
      simp only [count_running] at this
      omega

/-- Permit-accounting invariant: free permits plus executing calls
always equal the limiter size. -/
theorem disp_invariant {n : Nat} {s : DispState} (h : DispReachable n s) :
    s.permits + count_running s.tasks = n := by
  induction h with
  | refl => simp [disp_init, count_running]
  | tail _ step ih =>
    cases step with
    | submit => simpa [count_running_append_waiting] using ih
    | acquire i hp hi =>
      have := count_running_set_run hi
      simp only []
      omega
    | release i hi =>
      have := count_running_set_finished hi
      simp only []
      omega

/-! ## Helper lemmas for the registration claims -/

/-- The REGISTER_NODE messages of an outbound sequence, in order. -/
def registers_of (msgs : List OutMsg) : List RegisterNodeMessage :=
  msgs.filterMap (fun m =>
    match m with
    | OutMsg.register r => some r
    | _ => none)

/-- The UPDATE_WALLET messages of an outbound sequence, in order. -/
def wallets_of (msgs : List OutMsg) : List UpdateWalletMessage :=
  msgs.filterMap (fun m =>
    match m with
    | OutMsg.wallet w => some w
    | _ => none)

theorem registers_of_wallet_msgs_sent (cfg : Config) :
    registers_of (wallet_msgs_sent cfg) = [] := by
  unfold wallet_msgs_sent
  cases cfg.payout_address with
  | none => rfl
  | some a =>
    by_cases h : a = "" <;> simp [h, registers_of]

theorem wallet_msgs_of_maskable {cfg : Config} (hmask : payout_maskable cfg = true) :
    wallet_msgs cfg = some (wallet_msgs_sent cfg) := by
  unfold payout_maskable at hmask
  unfold wallet_msgs wallet_msgs_sent
  cases hp : cfg.payout_address with
  | none => rfl
  | some a =>
    rw [hp] at hmask
    by_cases ha : a = ""
    · simp [ha]
    · cases hm : mask_payout (str_bytes a) with
      | some p => simp [ha, hm]
      | none => simp [ha, hm] at hmask

theorem registers_of_register_map (f : NodeConfig → RegisterNodeMessage) (l : List NodeConfig) :
    registers_of (l.map (fun n => OutMsg.register (f n))) = l.map f := by
  induction l with
  | nil => rfl
  | cons x rest ih => simp [registers_of, List.filterMap_cons] at ih ⊢; exact ih

theorem wallets_of_register_map (f : NodeConfig → RegisterNodeMessage) (l : List NodeConfig) :
    wallets_of (l.map (fun n => OutMsg.register (f n))) = [] := by
  induction l with
  | nil => rfl
  | cons x rest _ih => simp [wallets_of, List.filterMap_cons]

/-- Decidable equality of adapter outcomes, so concrete backend calls
can be evaluated by decide in witnesses. -/
instance {ε α : Type} [DecidableEq ε] [DecidableEq α] : DecidableEq (Except ε α)
  | Except.ok a, Except.ok b =>
      if h : a = b then Decidable.isTrue (by rw [h])
      else Decidable.isFalse (fun he => h (Except.ok.inj he))
  | Except.ok _, Except.error _ => Decidable.isFalse (fun he => Except.noConfusion he)
  | Except.error _, Except.ok _ => Decidable.isFalse (fun he => Except.noConfusion he)
  | Except.error a, Except.error b =>
      if h : a = b then Decidable.isTrue (by rw [h])
      else Decidable.isFalse (fun he => h (Except.error.inj he))

/-! ## Concrete fixtures for witnesses and counterexamples -/

/-- A stand-in hash for witness instances: deterministic, two bytes. -/
def sha_fix : List Nat → List Nat :=
  fun l => [l.length % 256, 171]

/-- A latency oracle measuring zero milliseconds everywhere. -/
def lat0 : Nat → Nat :=
  fun _ => 0

/-- A backend whose every interaction fails with the string boom. -/
def backend_err : Backend :=
  { ollama_models := fun _ => Except.error "boom"
    openai_models := fun _ => Except.error "boom"
    ollama_chat_raw := fun _ _ => Except.error "boom"
    openai_chat_raw := fun _ _ => Except.error "boom" }

/-- A backend whose Ollama model listing fails at endpoint u and lists
m1 elsewhere; chat always fails. -/
def backend_mix : Backend :=
  { ollama_models := fun u => if u = "u" then Except.error "no" else Except.ok ["m1"]
    openai_models := fun _ => Except.error "no"
    ollama_chat_raw := fun _ _ => Except.error "boom"
    openai_chat_raw := fun _ _ => Except.error "boom" }

def node_a : NodeConfig :=
  { node_alias := "a", inference_uri := "u", api_mode := "ollama",
    region := "r", capacity := 1, price_per_thousand_tokens := 1 }

def node_b : NodeConfig :=
  { node_alias := "b", inference_uri := "ub", api_mode := "ollama",
    region := "r", capacity := 1, price_per_thousand_tokens := 1 }

def node_x : NodeConfig :=
  { node_alias := "x", inference_uri := "ub", api_mode := "ollama",
    region := "r", capacity := 1, price_per_thousand_tokens := 1 }

def node_op : NodeConfig :=
  { node_alias := "operator", inference_uri := "ua", api_mode := "ollama",
    region := "r", capacity := 1, price_per_thousand_tokens := 1 }

def cfg1 : Config :=
  { client_id := "c", api_secret := "s", nodes := [node_a],
    payout_address := none, server_url := "w", reconnect_delay_secs := 5 }

def cfg2 : Config :=
  { client_id := "c", api_secret := "s", nodes := [node_a, node_b],
    payout_address := some "walletaddr1", server_url := "w", reconnect_delay_secs := 5 }

def cfg_op : Config :=
  { client_id := "c", api_secret := "s", nodes := [node_x, node_op],
    payout_address := none, server_url := "w", reconnect_delay_secs := 5 }

/-- A configuration whose payout address aaaaaé has the UTF-8 bytes
97 97 97 97 97 195 169: byte index 6.min(7) = 6 falls inside the
two-byte final character, so the line-526 masking panics. -/
def cfg_bad : Config :=
  { client_id := "c", api_secret := "s", nodes := [node_a],
    payout_address := some "aaaaaé", server_url := "w", reconnect_delay_secs := 5 }

def payload_fix : InferencePayload :=
  { model := "m", messages := [], stream := false }

def prompt_fix : InterviewPrompt :=
  { id := "p1", prompt := "hello", max_tokens := 8 }

def prompt2_fix : InterviewPrompt :=
  { id := "p2", prompt := "again", max_tokens := 8 }

/-! ## Claim C3 -/

/-- Claim C3: sign(clientId, timestampSeconds, sharedSecret) equals the
lowercase hexadecimal rendering of SHA-256(clientId ++ timestampSeconds
++ hex(SHA-256(sharedSecret))), hex(SHA-256(sharedSecret)) also being
lowercase hexadecimal, and the function is pure and deterministic. -/
theorem compute_signature_spec (sha256 : List Nat → List Nat) (c t s : List Nat) :
    compute_signature sha256 c t s = sign_spec sha256 c t s
  ∧ compute_signature sha256 c t s = compute_signature sha256 c t s
  ∧ (∀ ch ∈ hex_encode (sha256 s), is_lower_hex_digit ch)
  ∧ (∀ ch ∈ compute_signature sha256 c t s, is_lower_hex_digit ch) := by
  refine ⟨rfl, rfl, hex_encode_lower _, ?_⟩
  unfold compute_signature
  exact hex_encode_lower _

/-- Witness for C3 at a concrete hash and concrete byte strings. -/
theorem compute_signature_spec_witness :
    compute_signature sha_fix [99] [116] [115] = sign_spec sha_fix [99] [116] [115]
  ∧ is_lower_hex_digit 48 := by
  refine ⟨(compute_signature_spec sha_fix [99] [116] [115]).1, ?_⟩
  exact (compute_signature_spec sha_fix [99] [116] [115]).2.2.2 48 (by decide)

/-! ## Claim C6 -/

/-- Claim C6: an inbound frame that fails to decode is non-fatal (the
message is dropped and the loop continues with no output), while a
decoded ERROR message terminates the session with that message as the
cause. -/
theorem decode_nonfatal_error_fatal (b : Backend) (lat : Nat → Nat) (cfg : Config) (count : Nat) :
    (∀ e, handle_frame b lat cfg count (Except.error e) = some (count, StepOut.cont [] []))
  ∧ (∀ message, handle_frame b lat cfg count (Except.ok (ServerMessage.ERROR message))
        = some (count, StepOut.fatal message)) :=
  ⟨fun _ => rfl, fun _ => rfl⟩

/-! ## Claim C5 -/

/-- Claim C5: in every reachable dispatcher state the number of
concurrently executing backend calls never exceeds the limiter size n;
when all n slots are executing no queued task can start (acquisition
suspends until a release), and submission itself is always enabled, so
the queue of not-yet-executing submissions is unbounded. -/
theorem dispatcher_concurrency_cap (n : Nat) (s : DispState) (h : DispReachable n s) :
    count_running s.tasks ≤ n
  ∧ (count_running s.tasks = n → s.permits = 0 ∧ ¬ can_start s)
  ∧ DispStep s { permits := s.permits, tasks := s.tasks ++ [TStat.waiting] } := by
  have hinv := disp_invariant h
  refine ⟨by omega, ?_, DispStep.submit s⟩
  intro hfull
  have hp : s.permits = 0 := by omega
  refine ⟨hp, fun hc => ?_⟩
  simp [can_start, hp] at hc

/-- Witness for C5 at the initial state of a limiter of size 1. -/
theorem dispatcher_concurrency_cap_witness :
    count_running (disp_init 1).tasks ≤ 1
  ∧ DispStep (disp_init 1)
      { permits := (disp_init 1).permits, tasks := (disp_init 1).tasks ++ [TStat.waiting] } := by
  have h := dispatcher_concurrency_cap 1 (disp_init 1) Relation.ReflTransGen.refl
  exact ⟨h.1, h.2.2⟩

/-! ## Claim C1 -/

/-- The work item the INFERENCE_REQUEST handler spawns when the first
configured node is n. -/
def inference_work_item (n : NodeConfig) (request_id : String) (payload : InferencePayload) : WorkItem :=
  { uri := n.inference_uri, api_mode := n.api_mode,
    model := payload.model, messages := payload.messages,
    request_id := request_id }

/-- Claim C1: handling an INFERENCE_REQUEST enqueues no synchronous
reply and leaves the session running (the step outcome is cont, never
fatal, whatever the backend later does), and the spawned task pushes
exactly one outbound message carrying the same requestId:
INFERENCE_RESPONSE with the backend result on success, INFERENCE_ERROR
with the failure string on failure. -/
theorem inference_single_reply (b : Backend) (lat : Nat → Nat) (cfg : Config) (count : Nat)
    (request_id : String) (payload : InferencePayload)
    (n : NodeConfig) (rest : List NodeConfig) (hcons : cfg.nodes = n :: rest) :
    route b lat cfg count (ServerMessage.INFERENCE_REQUEST request_id payload)
      = some ((count + 1) % 2 ^ 64, StepOut.cont [] [inference_work_item n request_id payload])
  ∧ (inference_work_item n request_id payload).request_id = request_id
  ∧ (inference_task_msgs b (inference_work_item n request_id payload)).length = 1
  ∧ (∀ m ∈ inference_task_msgs b (inference_work_item n request_id payload),
        m.request_id = some request_id)
  ∧ (∀ r, chat_completion b n.inference_uri payload.model payload.messages n.api_mode = Except.ok r →
        inference_task_reply b (inference_work_item n request_id payload)
          = { msg_type := "INFERENCE_RESPONSE", request_id := some request_id,
              result := some r, error := none, models := none })
  ∧ (∀ e, chat_completion b n.inference_uri payload.model payload.messages n.api_mode = Except.error e →
        inference_task_reply b (inference_work_item n request_id payload)
          = { msg_type := "INFERENCE_ERROR", request_id := some request_id,
              result := none, error := some e, models := none }) := by
  refine ⟨?_, rfl, rfl, ?_, ?_, ?_⟩
  · simp [route, handle_inference, hcons, inference_work_item]
  · intro m hm
    simp only [inference_task_msgs, List.mem_singleton] at hm
    subst hm
    unfold inference_task_reply
    cases chat_completion b (inference_work_item n request_id payload).uri
        (inference_work_item n request_id payload).model
        (inference_work_item n request_id payload).messages
        (inference_work_item n request_id payload).api_mode <;> rfl
  · intro r hr
    simp [inference_task_reply, inference_work_item, hr]
  · intro e he
    simp [inference_task_reply, inference_work_item, he]

/-- Witness for C1: one configured node, a backend whose chat call
fails; the handler spawns the work item and the task replies with one
INFERENCE_ERROR echoing the request id. -/
theorem inference_single_reply_witness :
    route backend_err lat0 cfg1 0 (ServerMessage.INFERENCE_REQUEST "r1" payload_fix)
      = some (1 % 2 ^ 64, StepOut.cont [] [inference_work_item node_a "r1" payload_fix])
  ∧ (inference_task_msgs backend_err (inference_work_item node_a "r1" payload_fix)).length = 1
  ∧ inference_task_reply backend_err (inference_work_item node_a "r1" payload_fix)
      = { msg_type := "INFERENCE_ERROR", request_id := some "r1",
          result := none, error := some "boom", models := none } := by
  have h := inference_single_reply backend_err lat0 cfg1 0 "r1" payload_fix node_a [] rfl
  exact ⟨h.1, h.2.2.1, h.2.2.2.2.2 "boom" (by decide)⟩

/-! ## Claim C2 -/

/-- Claim C2 counterexample: the claim asserts wallet and registration
output for every configured payout address, but the handler byte-slices
the address for its masked log line (main.rs line 526) before sending
anything, and that slicing panics when index 6.min(len) is not a
character boundary: for the address aaaaaé (UTF-8 bytes 97 97 97 97 97
195 169, index 6 the continuation byte 169) the handler panics, so
neither UPDATE_WALLET nor any REGISTER_NODE is sent although a non-empty
payout address and one node are configured. -/
theorem auth_success_registration_counterexample :
    cfg_bad.payout_address = some "aaaaaé"
  ∧ ¬ "aaaaaé" = ""
  ∧ 1 ≤ cfg_bad.nodes.length
  ∧ auth_success_msgs backend_mix cfg_bad = none
  ∧ route backend_mix lat0 cfg_bad 0 (ServerMessage.AUTH_SUCCESS "op" none "hi") = none := by
  decide

/-- Claim C2 as amended: routing AUTH_SUCCESS with at least one
configured node and a maskable payout address (absent, empty, or with
both masking byte indices on character boundaries, as every ASCII
address is) writes the optional UPDATE_WALLET first (present exactly
when a payout address is configured and non-empty), then exactly one
REGISTER_NODE per configured node in configuration order; a node whose
model listing fails is registered with an empty model list, and each
node's registration depends only on its own listing outcome. When the
masking panics instead, the handler aborts before sending anything. -/
theorem auth_success_registration (b : Backend) (cfg : Config) (_h : 1 ≤ cfg.nodes.length)
    (hmask : payout_maskable cfg = true) :
    auth_success_msgs b cfg
      = some (wallet_msgs_sent cfg ++ cfg.nodes.map (fun n => OutMsg.register (register_msg b n)))
  ∧ (wallets_of (wallet_msgs_sent cfg ++ cfg.nodes.map (fun n => OutMsg.register (register_msg b n))) ≠ []
       ↔ ∃ a, cfg.payout_address = some a ∧ a ≠ "")
  ∧ registers_of (wallet_msgs_sent cfg ++ cfg.nodes.map (fun n => OutMsg.register (register_msg b n)))
       = cfg.nodes.map (register_msg b)
  ∧ (∀ n, (register_msg b n).node_alias = n.node_alias)
  ∧ (∀ n e, get_models b n.inference_uri n.api_mode = Except.error e → (register_msg b n).models = [])
  ∧ (∀ n ms, get_models b n.inference_uri n.api_mode = Except.ok ms → (register_msg b n).models = ms) := by
  refine ⟨?_, ?_, ?_, fun n => rfl, ?_, ?_⟩
  · unfold auth_success_msgs
    rw [wallet_msgs_of_maskable hmask]
    rfl
  · unfold wallets_of wallet_msgs_sent
    cases cfg.payout_address with
    | none => simp [List.filterMap_append, List.filterMap_cons]
    | some a =>
      by_cases ha : a = "" <;>
        simp [ha, List.filterMap_append, List.filterMap_cons]
  · unfold registers_of
    rw [List.filterMap_append]
    have h1 := registers_of_wallet_msgs_sent cfg
    have h2 := registers_of_register_map (register_msg b) cfg.nodes
    unfold registers_of at h1 h2
    rw [h1, h2]
    simp
  · intro n e he
    simp [register_msg, he]
  · intro n ms hms
    simp [register_msg, hms]

/-- Witness for C2 (amended): two nodes, a configured non-empty ASCII
payout address, a backend whose listing fails for the first node and
lists m1 for the second; the handler completes, emitting the wallet
update then both registrations in order, the first with an empty model
list. -/
theorem auth_success_registration_witness :
    auth_success_msgs backend_mix cfg2
      = some (wallet_msgs_sent cfg2
          ++ cfg2.nodes.map (fun n => OutMsg.register (register_msg backend_mix n)))
  ∧ registers_of (wallet_msgs_sent cfg2
          ++ cfg2.nodes.map (fun n => OutMsg.register (register_msg backend_mix n)))
      = cfg2.nodes.map (register_msg backend_mix)
  ∧ (register_msg backend_mix node_a).models = []
  ∧ (register_msg backend_mix node_b).models = ["m1"]
  ∧ wallets_of (wallet_msgs_sent cfg2
          ++ cfg2.nodes.map (fun n => OutMsg.register (register_msg backend_mix n))) ≠ [] := by
  have h := auth_success_registration backend_mix cfg2 (by decide) (by decide)
  exact ⟨h.1, h.2.2.1, h.2.2.2.2.1 node_a "no" (by decide),
         h.2.2.2.2.2 node_b ["m1"] (by decide),
         h.2.1.mpr ⟨"walletaddr1", rfl, by decide⟩⟩

/-! ## Claim C4 -/

theorem interview_results_length (b : Backend) (lat : Nat → Nat) (base_url model api_mode : String) :
    ∀ (j : Nat) (prompts : List InterviewPrompt),
      (interview_results b lat base_url model api_mode j prompts).length = prompts.length := by
  intro j prompts
  induction prompts generalizing j with
  | nil => rfl
  | cons p rest ih => simp [interview_results, ih]

theorem interview_results_get (b : Backend) (lat : Nat → Nat) (base_url model api_mode : String) :
    ∀ (prompts : List InterviewPrompt) (j i : Nat) (p : InterviewPrompt),
      prompts.get? i = some p →
      (interview_results b lat base_url model api_mode j prompts).get? i
        = some (run_interview_prompt b (lat (j + i)) base_url model p api_mode) := by
  intro prompts
  induction prompts with
  | nil => intro j i p hp; simp at hp
  | cons q rest ih =>
    intro j i p hp
    cases i with
    | zero =>
      simp only [List.get?] at hp
      cases hp
      simp [interview_results]
    | succ k =>
      simp only [List.get?] at hp
      have := ih (j + 1) k p hp
      have harith : j + 1 + k = j + (k + 1) := by omega
      rw [harith] at this
      simpa [interview_results] using this

/-- Claim C4 counterexample: the claim says a failed prompt's result has
zero metrics, but the source records the measured wall-clock latency in
total_ms even on failure (main.rs lines 402, 422-429): with a backend
whose chat call fails and a measured latency of 100 ms, the result
carries error boom and total_ms 100, not 0. -/
theorem interview_failed_metrics_counterexample :
    (run_interview_prompt backend_err 100 "u" "m" prompt_fix "ollama").error = some "boom"
  ∧ (run_interview_prompt backend_err 100 "u" "m" prompt_fix "ollama").total_ms = 100
  ∧ ¬ (run_interview_prompt backend_err 100 "u" "m" prompt_fix "ollama").total_ms = 0 := by
  decide

/-- Claim C4 as amended: the Interview Executor returns exactly one
result per prompt, in input order, never aborting early; a successful
prompt's result carries the backend's first choice text, a TTFT of half
the measured total latency and the reported completion-token count (0
when absent); a failed prompt's result has empty response text, zero
TTFT and token count, the measured total latency, and a populated error
field, and the remaining prompts are still executed. -/
theorem interview_executor_results (b : Backend) (lat : Nat → Nat)
    (base_url interview_id model : String) (prompts : List InterviewPrompt) (api_mode : String) :
    (execute_interview b lat base_url interview_id model prompts api_mode).results.length
      = prompts.length
  ∧ (∀ i p, prompts.get? i = some p →
        (execute_interview b lat base_url interview_id model prompts api_mode).results.get? i
          = some (run_interview_prompt b (lat i) base_url model p api_mode))
  ∧ (∀ l1 p r,
        chat_completion b base_url model [{ role := "user", content := p.prompt }] api_mode
          = Except.ok r →
        run_interview_prompt b l1 base_url model p api_mode
          = { prompt_id := p.id
              response := ((r.choices.head?).map (fun c => c.message.content)).getD ""
              ttft_ms := l1 % 2 ^ 32 / 2
              total_ms := l1 % 2 ^ 32
              tokens_generated := ((r.usage).map (fun u => u.completion_tokens)).getD 0
              error := none })
  ∧ (∀ l1 p e,
        chat_completion b base_url model [{ role := "user", content := p.prompt }] api_mode
          = Except.error e →
        run_interview_prompt b l1 base_url model p api_mode
          = { prompt_id := p.id, response := "", ttft_ms := 0, total_ms := l1 % 2 ^ 32,
              tokens_generated := 0, error := some e }) := by
  refine ⟨interview_results_length b lat base_url model api_mode 0 prompts, ?_, ?_, ?_⟩
  · intro i p hp
    have := interview_results_get b lat base_url model api_mode prompts 0 i p hp
    simpa [execute_interview] using this
  · intro l1 p r hr
    simp [run_interview_prompt, hr]
  · intro l1 p e he
    simp [run_interview_prompt, he]

/-- Witness for C4 (amended) on a two-prompt script against the failing
backend: two results in order, each with the failure shape. -/
theorem interview_executor_results_witness :
    (execute_interview backend_err lat0 "u" "i1" "m" [prompt_fix, prompt2_fix] "ollama").results.length = 2
  ∧ (execute_interview backend_err lat0 "u" "i1" "m" [prompt_fix, prompt2_fix] "ollama").results.get? 1
      = some (run_interview_prompt backend_err 0 "u" "m" prompt2_fix "ollama")
  ∧ run_interview_prompt backend_err 7 "u" "m" prompt_fix "ollama"
      = { prompt_id := "p1", response := "", ttft_ms := 0, total_ms := 7 % 2 ^ 32,
          tokens_generated := 0, error := some "boom" } := by
  have h := interview_executor_results backend_err lat0 "u" "i1" "m" [prompt_fix, prompt2_fix] "ollama"
  exact ⟨h.1, h.2.1 1 prompt2_fix (by decide), h.2.2.2 7 prompt_fix "boom" (by decide)⟩

/-! ## Claim C7 -/

/-- Claim C7 counterexample: the claim says an absent alias always
routes to the first configured node, but the source substitutes the
literal label operator for an absent alias before the lookup (main.rs
line 602); with nodes [x at ub, operator at ua], a request with no
alias routes to ua, not to the first node's ub. -/
theorem interview_routing_counterexample :
    interview_target cfg_op none = some ("ua", "ollama")
  ∧ ¬ interview_target cfg_op none = some ("ub", "ollama") := by
  decide

/-- Claim C7 as amended: an INTERVIEW_REQUEST is routed to the endpoint
and backend family stored in the NodeEndpointTable under the request's
target alias, an absent alias being looked up as the literal label
operator; when that label is not present in the table, the first
configured node's endpoint and family are used instead, and the handler
replies with the interview executed against the resolved target. -/
theorem interview_routing (b : Backend) (lat : Nat → Nat) (cfg : Config) (count : Nat)
    (interview_id model : String) (prompts : List InterviewPrompt) (timeout_ms : Nat)
    (node_id : Option String) :
    (∀ uri mode,
        assoc_get (node_endpoints cfg) (node_id.getD "operator") = some (uri, mode) →
        interview_target cfg node_id = some (uri, mode))
  ∧ (assoc_get (node_endpoints cfg) (node_id.getD "operator") = none →
        ∀ n rest, cfg.nodes = n :: rest →
        interview_target cfg node_id = some (n.inference_uri, n.api_mode))
  ∧ (∀ uri mode, interview_target cfg node_id = some (uri, mode) →
        route b lat cfg count
            (ServerMessage.INTERVIEW_REQUEST interview_id node_id model prompts timeout_ms)
          = some (count,
              StepOut.cont
                [OutMsg.interview (execute_interview b lat uri interview_id model prompts mode)]
                [])) := by
  refine ⟨?_, ?_, ?_⟩
  · intro uri mode hget
    simp [interview_target, hget]
  · intro hget n rest hcons
    simp [interview_target, hget, hcons]
  · intro uri mode htarget
    simp [route, htarget]

/-- Witness for C7 (amended): a known alias routes to its table entry,
an unknown alias falls back to the first node, and the handler emits the
interview result for the resolved endpoint. -/
theorem interview_routing_witness :
    interview_target cfg_op (some "x") = some ("ub", "ollama")
  ∧ interview_target cfg_op (some "zzz") = some ("ub", "ollama")
  ∧ route backend_err lat0 cfg_op 0
        (ServerMessage.INTERVIEW_REQUEST "i1" (some "x") "m" [] 5)
      = some (0,
          StepOut.cont
            [OutMsg.interview (execute_interview backend_err lat0 "ub" "i1" "m" [] "ollama")]
            []) := by
  have h1 := (interview_routing backend_err lat0 cfg_op 0 "i1" "m" [] 5 (some "x")).1
    "ub" "ollama" (by decide)
  have h2 := (interview_routing backend_err lat0 cfg_op 0 "i1" "m" [] 5 (some "zzz")).2.1
    (by decide) node_x [node_op] (by decide)
  have h3 := (interview_routing backend_err lat0 cfg_op 0 "i1" "m" [] 5 (some "x")).2.2
    "ub" "ollama" h1
  exact ⟨h1, h2, h3⟩

/-! ## Claim C8 -/

/-- Claim C8 counterexample: the claim says the total-requests counter
is incremented by exactly one, but the u64 fetch_add wraps: at counter
value 2^64 - 1 handling one more INFERENCE_REQUEST stores 0, which is
not the old value plus one. -/
theorem inference_counter_counterexample :
    Option.map (fun r => r.1) (handle_inference cfg1 (2 ^ 64 - 1) "r1" payload_fix) = some 0
  ∧ ¬ (0 : Nat) = (2 ^ 64 - 1) + 1 := by
  decide

/-- Claim C8 as amended: handling an INFERENCE_REQUEST increments the
process-wide total-requests counter by exactly one modulo 2^64 (exactly
one whenever the counter has not reached 2^64 - 1) and always routes the
work item to the first configured node's endpoint and backend family,
regardless of which node the service intended, returning with no
synchronous reply. -/
theorem inference_counter_routing (b : Backend) (lat : Nat → Nat) (cfg : Config) (count : Nat)
    (request_id : String) (payload : InferencePayload)
    (n : NodeConfig) (rest : List NodeConfig) (hcons : cfg.nodes = n :: rest) :
    handle_inference cfg count request_id payload
      = some ((count + 1) % 2 ^ 64, [], [inference_work_item n request_id payload])
  ∧ (count + 1 < 2 ^ 64 → (count + 1) % 2 ^ 64 = count + 1)
  ∧ route b lat cfg count (ServerMessage.INFERENCE_REQUEST request_id payload)
      = some ((count + 1) % 2 ^ 64, StepOut.cont [] [inference_work_item n request_id payload]) := by
  refine ⟨?_, fun hlt => Nat.mod_eq_of_lt hlt, ?_⟩
  · simp [handle_inference, hcons, inference_work_item]
  · simp [route, handle_inference, hcons, inference_work_item]

/-- Witness for C8 (amended) at counter value 5 with one configured
node. -/
theorem inference_counter_routing_witness :
    handle_inference cfg1 5 "r1" payload_fix
      = some ((5 + 1) % 2 ^ 64, [], [inference_work_item node_a "r1" payload_fix])
  ∧ (5 + 1) % 2 ^ 64 = 5 + 1 := by
  have h := inference_counter_routing backend_err lat0 cfg1 5 "r1" payload_fix node_a [] rfl
  exact ⟨h.1, h.2.1 (by decide)⟩

/-! ## Claim C9 -/

/-- Claim C9: when the configured node list is non-empty, which the
startup path enforces before any session runs, neither the
INFERENCE_REQUEST handler's nor the INTERVIEW_REQUEST fallback's unwrap
of the first configured node can panic: both resolutions always return
some. -/
theorem first_node_unwrap_safe (cfg : Config) (h : startup_accepts cfg = true) :
    (∀ count request_id payload, (handle_inference cfg count request_id payload).isSome = true)
  ∧ (∀ node_id, (interview_target cfg node_id).isSome = true) := by
  have hne : cfg.nodes ≠ [] := by
    intro hnil
    rw [startup_accepts, hnil] at h
    simp at h
  obtain ⟨n, rest, hcons⟩ : ∃ n rest, cfg.nodes = n :: rest := by
    cases hc : cfg.nodes with
    | nil => exact absurd hc hne
    | cons a l => exact ⟨a, l, rfl⟩
  constructor
  · intro count request_id payload
    simp [handle_inference, hcons]
  · intro node_id
    unfold interview_target
    cases hget : assoc_get (node_endpoints cfg) (node_id.getD "operator") with
    | some p => simp [hget]
    | none => simp [hget, hcons]

/-- Witness for C9 with the one-node configuration. -/
theorem first_node_unwrap_safe_witness :
    (handle_inference cfg1 0 "r1" payload_fix).isSome = true
  ∧ (interview_target cfg1 none).isSome = true := by
  have h := first_node_unwrap_safe cfg1 (by decide)
  exact ⟨h.1 0 "r1" payload_fix, h.2 none⟩

/-! ## Claim C10 -/

theorem ascii_char_boundary {s : List Nat} (hascii : ∀ b ∈ s, b < 128)
    {i : Nat} (hle : i ≤ s.length) : is_char_boundary s i = true := by
  unfold is_char_boundary
  cases hget : s.get? i with
  | some b =>
    have hb : b ∈ s := List.get?_mem hget
    have hlt := hascii b hb
    simp [hget, hlt]
  | none =>
    have hlen : s.length ≤ i := List.get?_eq_none.mp hget
    have heq : i = s.length := Nat.le_antisymm hle hlen
    simp [hget, heq]

/-- Claim C10: for every non-empty payout address of single-byte (ASCII)
characters, the AUTH_SUCCESS handler's masking of the address for the
log line (prefix up to 6.min(len), suffix from len.saturating_sub(4),
main.rs line 526) never panics, however short the address: both slice
indices stay in range and on character boundaries. -/
theorem mask_payout_safe (addr : List Nat) (_hne : addr ≠ [])
    (hascii : ∀ b ∈ addr, b < 128) :
    (mask_payout addr).isSome = true
  ∧ mask_payout addr
      = some (addr.take (min 6 addr.length), addr.drop (addr.length - 4)) := by
  have h1 : is_char_boundary addr (min 6 addr.length) = true :=
    ascii_char_boundary hascii (Nat.min_le_right 6 addr.length)
  have h2 : is_char_boundary addr (addr.length - 4) = true :=
    ascii_char_boundary hascii (Nat.sub_le addr.length 4)
  constructor
  · simp [mask_payout, slice_to, slice_from, h1, h2]
  · simp [mask_payout, slice_to, slice_from, h1, h2]

/-- Witness for C10 at the two-byte ASCII address hi (bytes 104 105),
shorter than both mask bounds. -/
theorem mask_payout_safe_witness :
    (mask_payout [104, 105]).isSome = true
  ∧ mask_payout [104, 105]
      = some ([104, 105].take (min 6 [104, 105].length), [104, 105].drop ([104, 105].length - 4)) := by
  have h := mask_payout_safe [104, 105] (by decide) (by decide)
  exact ⟨h.1, h.2⟩
